import Mathlib

/-!
Verification of the e-commerce dashboard pipeline (app.py, business_metrics.py,
data_loader.py): fact rows, KPI and growth computations, the period window
resolver, delivery bucketing, joins, loader validation, and star rating.

Machine reals (pandas/numpy float64) are modelled as rationals; a float
computation that yields a non-finite value (inf or NaN, e.g. a numpy-float
division by zero or the mean of an empty series) is modelled as
`none : Option ℚ`.  A raised Python exception (ZeroDivisionError from a
plain-int division by zero) is modelled as `Except.error`.
-/

namespace DataAnalysis

/-- One row of the denormalized sales fact table built by
`filter_data_by_date` in app.py (one row per order item, joined with its
delivered order, product, customer and review).  `purchaseYM` is the
purchase timestamp truncated to calendar month (`dt.to_period('M')`),
encoded as `year * 12 + (month - 1)` so that adding 12 shifts one year. -/
structure FactRow where
  order_id : Nat
  product_id : Nat
  customer_id : Nat
  price : ℚ
  purchaseYM : Nat
  delivery_days : Option ℤ
  review_score : Option ℚ
deriving DecidableEq

/-- A pandas DataFrame holding fact rows: the row data plus the set of
derived columns that have been assigned onto the frame in place
(`df['year_month'] = ...` adds a column to the shared structure). -/
structure Frame where
  rows : List FactRow
  extraCols : List String
deriving DecidableEq

/-- In-place column assignment on a frame (`df[c] = ...`): the column set
gains `c` if it is not already there. -/
def addCol (f : Frame) (c : String) : Frame :=
  if c ∈ f.extraCols then f else ⟨f.rows, f.extraCols ++ [c]⟩

/-- `data['price'].sum()` over a fact table. -/
def totalRevenue (rows : List FactRow) : ℚ :=
  (rows.map FactRow.price).sum

/-- The distinct `order_id` values of a fact table, in order of first
appearance. -/
def orderIds (rows : List FactRow) : List Nat :=
  (rows.map FactRow.order_id).dedup

/-- `data['order_id'].nunique()`. -/
def totalOrders (rows : List FactRow) : Nat :=
  (orderIds rows).length

/-- Average order value as computed in `calculate_kpis` (app.py line 63):
total revenue over distinct orders, 0 when there are no orders. -/
def avgOrderValue (rows : List FactRow) : ℚ :=
  if totalOrders rows > 0 then totalRevenue rows / (totalOrders rows : ℚ) else 0

/-- `.mean()` of a float series: NaN (`none`) on an empty series. -/
def mean (l : List ℚ) : Option ℚ :=
  if l = [] then none else some (l.sum / (l.length : ℚ))

/-- `groupby('order_id')['price'].sum()`: per-order revenue, one entry per
distinct order id. -/
def perOrderRevenue (rows : List FactRow) : List ℚ :=
  (orderIds rows).map (fun oid => totalRevenue (rows.filter (fun r => r.order_id == oid)))

/-- The numpy-float growth formula `((x - p) / p) * 100` as written
(unguarded) in `calculate_revenue_metrics` for the revenue and AOV rates
(business_metrics.py lines 58 and 60): float64 division never raises, but
the result is finite only when both operands are finite and the
denominator is nonzero; otherwise it is inf or NaN (`none`). -/
def optGrowth (x p : Option ℚ) : Option ℚ :=
  match x, p with
  | some a, some b => if b = 0 then none else some ((a - b) / b * 100)
  | _, _ => none

/-- A Python exception escaping a metrics call:
`(total_orders - prev_orders) / prev_orders` at business_metrics.py
line 59 divides plain Python ints (`Series.nunique()` returns `int`), so a
zero `prev_orders` raises ZeroDivisionError. -/
inductive PyError where
  | zeroDivision : PyError
deriving DecidableEq

/-- The growth-related entries that `calculate_revenue_metrics` adds to its
result when `comparison_data` is provided. -/
structure GrowthFields where
  revenue_growth_rate : Option ℚ
  order_growth_rate : Option ℚ
  aov_growth_rate : Option ℚ
  previous_revenue : ℚ
  previous_orders : Nat
  previous_aov : Option ℚ
deriving DecidableEq

/-- The dictionary returned by `calculate_revenue_metrics`
(business_metrics.py lines 29-66). -/
structure RevenueMetrics where
  total_revenue : ℚ
  total_orders : Nat
  avg_order_value : Option ℚ
  total_items_sold : Nat
  growth : Option GrowthFields
deriving DecidableEq

/-- `EcommerceMetrics.calculate_revenue_metrics` (business_metrics.py
lines 29-66).  `avg_order_value` is
`groupby('order_id')['price'].sum().mean()` — NaN (`none`) on an empty
frame.  When `comparison_data` is given, the update dict's values are
evaluated in order: `revenue_growth_rate` first, a numpy-float64 division
that yields inf (`none`) rather than raising when `prev_revenue` is 0;
then `order_growth_rate`, where `total_orders` and `prev_orders` are plain
Python ints from `nunique()`, so a zero `prev_orders` raises
ZeroDivisionError and the call never returns (`.error`); when
`prev_orders > 0` that quotient is an ordinary finite float, and
`aov_growth_rate` is again a never-raising float division (NaN operands
propagate). -/
def calculate_revenue_metrics (sales_data : List FactRow)
    (comparison_data : Option (List FactRow)) : Except PyError RevenueMetrics :=
  let total_revenue := totalRevenue sales_data
  let total_orders := totalOrders sales_data
  let avg_order_value := mean (perOrderRevenue sales_data)
  match comparison_data with
  | none => .ok ⟨total_revenue, total_orders, avg_order_value, sales_data.length, none⟩
  | some c =>
      let prev_revenue := totalRevenue c
      let prev_orders := totalOrders c
      let prev_aov := mean (perOrderRevenue c)
      if prev_orders = 0 then .error .zeroDivision
      else
        .ok ⟨total_revenue, total_orders, avg_order_value, sales_data.length,
          some ⟨optGrowth (some total_revenue) (some prev_revenue),
                some (((total_orders : ℚ) - (prev_orders : ℚ)) / (prev_orders : ℚ) * 100),
                optGrowth avg_order_value prev_aov,
                prev_revenue, prev_orders, prev_aov⟩⟩

/-- Insert into an ascending list, keeping it ascending. -/
def insertAsc (x : Nat) : List Nat → List Nat
  | [] => [x]
  | y :: ys => if x ≤ y then x :: y :: ys else y :: insertAsc x ys

/-- Sort ascending (insertion sort). -/
def sortAsc (l : List Nat) : List Nat :=
  l.foldr insertAsc []

/-- The distinct purchase months of a fact table, ascending (pandas
`groupby` sorts its keys). -/
def ymKeys (rows : List FactRow) : List Nat :=
  sortAsc ((rows.map FactRow.purchaseYM).dedup)

/-- Revenue of one calendar month of a fact table. -/
def monthRevenue (rows : List FactRow) (k : Nat) : ℚ :=
  totalRevenue (rows.filter (fun r => r.purchaseYM == k))

/-- `groupby('year_month')['price'].sum()`: the monthly revenue series in
chronological order. -/
def monthlyRevenueSeries (rows : List FactRow) : List ℚ :=
  (ymKeys rows).map (monthRevenue rows)

/-- The KPI dictionary returned by `calculate_kpis` (app.py lines 83-91). -/
structure Kpis where
  total_revenue : ℚ
  revenue_growth : ℚ
  monthly_growth : ℚ
  avg_order_value : ℚ
  aov_growth : ℚ
  total_orders : Nat
  orders_growth : ℚ
deriving DecidableEq

/-- `calculate_kpis` (app.py lines 56-91).  Besides the KPI dictionary it
returns the two frames as they are after the call, because lines 70-71
assign a `year_month` column onto the shared input frames in place. -/
def calculate_kpis (current_data previous_data : Frame) : Kpis × Frame × Frame :=
  let current_revenue := totalRevenue current_data.rows
  let previous_revenue := if previous_data.rows.length > 0 then totalRevenue previous_data.rows else 0
  let current_orders := totalOrders current_data.rows
  let previous_orders := if previous_data.rows.length > 0 then totalOrders previous_data.rows else 0
  let current_aov : ℚ := if current_orders > 0 then current_revenue / (current_orders : ℚ) else 0
  let previous_aov : ℚ := if previous_orders > 0 then previous_revenue / (previous_orders : ℚ) else 0
  let revenue_growth : ℚ :=
    if previous_revenue > 0 then (current_revenue - previous_revenue) / previous_revenue * 100 else 0
  let aov_growth : ℚ :=
    if previous_aov > 0 then (current_aov - previous_aov) / previous_aov * 100 else 0
  let orders_growth : ℚ :=
    if previous_orders > 0 then ((current_orders : ℚ) - (previous_orders : ℚ)) / (previous_orders : ℚ) * 100 else 0
  let current' := addCol current_data "year_month"
  let previous' := addCol previous_data "year_month"
  let current_monthly := monthlyRevenueSeries current_data.rows
  let monthly_growth : ℚ :=
    if current_monthly.length ≥ 2 then
      let latest_month := current_monthly.getD (current_monthly.length - 1) 0
      let prev_month := current_monthly.getD (current_monthly.length - 2) 0
      if prev_month > 0 then (latest_month - prev_month) / prev_month * 100 else 0
    else 0
  (⟨current_revenue, revenue_growth, monthly_growth, current_aov, aov_growth,
    current_orders, orders_growth⟩, current', previous')

/-- `create_revenue_trend_chart` (app.py lines 139-184): monthly revenue of
the current period, optionally the previous period's monthly revenue with
its months shifted forward one year, plus the two frames as they are after
the call (the function assigns `year_month` onto the shared frames). -/
def create_revenue_trend_chart (current_data previous_data : Frame) :
    (List (Nat × ℚ) × Option (List (Nat × ℚ))) × Frame × Frame :=
  let current' := addCol current_data "year_month"
  let current_monthly := (ymKeys current_data.rows).map (fun k => (k, monthRevenue current_data.rows k))
  if previous_data.rows.length > 0 then
    let previous' := addCol previous_data "year_month"
    let previous_monthly := (ymKeys previous_data.rows).map (fun k => (k + 12, monthRevenue previous_data.rows k))
    ((current_monthly, some previous_monthly), current', previous')
  else
    ((current_monthly, none), current', previous_data)

end DataAnalysis

namespace DataAnalysis

/-- An inclusive calendar window, dates as proleptic Gregorian day numbers. -/
structure Window where
  startDay : ℤ
  endDay : ℤ
deriving DecidableEq

/-- The user-correctable window validation failure (app.py line 454-456:
`st.error("Start date must be before end date")`). -/
inductive WindowError where
  | invalidWindow : WindowError
deriving DecidableEq

/-- Length of an inclusive window in calendar days. -/
def inclusiveLength (w : Window) : ℤ :=
  w.endDay - w.startDay + 1

/-- The period window resolution of `main` (app.py lines 454-464): reject
`start >= end`, otherwise `period_length = (end - start).days`,
`previous_start = start - period_length days`,
`previous_end = start - 1 day`. -/
def resolveWindows (start_date end_date : ℤ) : Except WindowError (Window × Window) :=
  if start_date ≥ end_date then .error .invalidWindow
  else
    let period_length := end_date - start_date
    let previous_start := start_date - period_length
    let previous_end := start_date - 1
    .ok (⟨start_date, end_date⟩, ⟨previous_start, previous_end⟩)

/-- Proleptic Gregorian civil date to day number (days since 1970-01-01),
the standard `days_from_civil` computation; used only to express concrete
calendar dates as day numbers. -/
def daysFromCivil (y m d : ℤ) : ℤ :=
  let yy := if m ≤ 2 then y - 1 else y
  let era := (if 0 ≤ yy then yy else yy - 399) / 400
  let yoe := yy - era * 400
  let mp := if 2 < m then m - 3 else m + 9
  let doy := (153 * mp + 2) / 5 + d - 1
  let doe := yoe * 365 + yoe / 4 - yoe / 100 + doy
  era * 146097 + doe - 719468

end DataAnalysis

namespace DataAnalysis

/-- The delivery-day bucketing of `create_satisfaction_delivery_chart`
(app.py lines 276-280): `pd.cut(bins=[0, 3, 7, 14, inf])` with the default
right-closed intervals; a value outside every bin (days ≤ 0) gets a null
bucket. -/
def pdCutDeliveryBucket (d : ℤ) : Option String :=
  if d ≤ 0 then none
  else if d ≤ 3 then some "1-3 days"
  else if d ≤ 7 then some "4-7 days"
  else if d ≤ 14 then some "8-14 days"
  else some "15+ days"

/-- `dropna(subset=['review_score', 'delivery_days'])`. -/
def dropnaDeliveryReview (rows : List FactRow) : List FactRow :=
  rows.filter (fun r => r.delivery_days.isSome && r.review_score.isSome)

/-- The review scores of the rows that fall in a given delivery bucket. -/
def bucketScores (rows : List FactRow) (b : String) : List ℚ :=
  ((dropnaDeliveryReview rows).filter
    (fun r => r.delivery_days.bind pdCutDeliveryBucket == some b)).filterMap FactRow.review_score

/-- `groupby('delivery_bucket')['review_score'].mean()` of the chart
(app.py line 282). -/
def satisfaction_by_delivery (rows : List FactRow) (b : String) : Option ℚ :=
  mean (bucketScores rows b)

/-- The delivery-speed lambda of `analyze_customer_experience`
(business_metrics.py line 166):
`'1-3 days' if x <= 3 else '4-7 days' if x <= 7 else '8+ days'`. -/
def delivery_category (x : ℤ) : String :=
  if x ≤ 3 then "1-3 days" else if x ≤ 7 then "4-7 days" else "8+ days"

/-- `EcommerceDataLoader.categorize_delivery_speed` (data_loader.py
lines 236-251). -/
def categorize_delivery_speed (days : ℤ) : String :=
  if days ≤ 3 then "1-3 days"
  else if days ≤ 7 then "4-7 days"
  else "8+ days"

/-- Python 3 `round` to an integer on an exactly-representable value:
round half to even. `int(...)` of the integer-valued result is the
identity, so `int(round(avg_review))` (app.py line 374) is this map. -/
def star_rating (avg_review : ℚ) : ℤ :=
  if avg_review - (⌊avg_review⌋ : ℚ) < 1/2 then ⌊avg_review⌋
  else if 1/2 < avg_review - (⌊avg_review⌋ : ℚ) then ⌊avg_review⌋ + 1
  else if ⌊avg_review⌋ % 2 = 0 then ⌊avg_review⌋ else ⌊avg_review⌋ + 1

/-- All review scores present in a fact table (`dropna` on the column). -/
def review_scores (rows : List FactRow) : List ℚ :=
  rows.filterMap FactRow.review_score

/-- The star rating of `create_bottom_cards` (app.py lines 371-374):
`int(round(data.dropna(subset=['review_score'])['review_score'].mean()))`,
absent when the mean is over no rows. -/
def stars_of (rows : List FactRow) : Option ℤ :=
  (mean (review_scores rows)).map star_rating

/-- A row of `order_items.merge(delivered_orders, on='order_id')` in
`filter_data_by_date` (app.py lines 46-48), before the product, customer
and review joins. -/
structure SalesRow where
  order_id : Nat
  product_id : Nat
  customer_id : Nat
  price : ℚ
deriving DecidableEq

/-- A row of the products table (`product_id` is its unique key,
`product_category_name` is nullable). -/
structure Product where
  product_id : Nat
  product_category_name : Option String
deriving DecidableEq

/-- A row of the customers table (`customer_id` is its unique key). -/
structure Customer where
  customer_id : Nat
  customer_state : String
  customer_city : String
deriving DecidableEq

/-- A sales row after the product and customer joins of
`filter_data_by_date`: category and state are absent when the respective
key had no match. -/
structure JoinedRow where
  order_id : Nat
  product_id : Nat
  customer_id : Nat
  price : ℚ
  product_category_name : Option String
  customer_state : Option String
deriving DecidableEq

/-- `sales_data.merge(products, on='product_id', how='left')` (app.py
line 49): every left row is kept; an unmatched row carries a null
category, a matched row one output row per matching product. -/
def leftJoinProducts (sales : List SalesRow) (products : List Product) : List JoinedRow :=
  sales.flatMap fun s =>
    match products.filter (fun p => p.product_id == s.product_id) with
    | [] => [⟨s.order_id, s.product_id, s.customer_id, s.price, none, none⟩]
    | ps => ps.map fun p => ⟨s.order_id, s.product_id, s.customer_id, s.price, p.product_category_name, none⟩

/-- `sales_data.merge(customers, on='customer_id', how='left')` (app.py
line 51). -/
def leftJoinCustomers (rows : List JoinedRow) (customers : List Customer) : List JoinedRow :=
  rows.flatMap fun r =>
    match customers.filter (fun c => c.customer_id == r.customer_id) with
    | [] => [{ r with customer_state := none }]
    | cs => cs.map fun c => { r with customer_state := some c.customer_state }

/-- A row of `get_product_category_data`'s output. -/
structure CategoryRow where
  product_id : Nat
  product_category_name : Option String
  price : ℚ
deriving DecidableEq

/-- A row of `get_geographic_data`'s output. -/
structure GeoRow where
  order_id : Nat
  customer_id : Nat
  price : ℚ
  customer_state : String
  customer_city : String
deriving DecidableEq

/-- `EcommerceDataLoader.get_product_category_data` (data_loader.py
lines 188-192): `pd.merge(left=products, right=sales_data,
on='product_id')` with the default inner join. -/
def get_product_category_data (products : List Product) (sales : List SalesRow) : List CategoryRow :=
  products.flatMap fun p =>
    (sales.filter (fun s => s.product_id == p.product_id)).map fun s =>
      ⟨p.product_id, p.product_category_name, s.price⟩

/-- `EcommerceDataLoader.get_geographic_data` (data_loader.py
lines 208-214): `pd.merge(left=sales_data, right=customers,
on='customer_id')` with the default inner join. -/
def get_geographic_data (sales : List SalesRow) (customers : List Customer) : List GeoRow :=
  sales.flatMap fun s =>
    (customers.filter (fun c => c.customer_id == s.customer_id)).map fun c =>
      ⟨s.order_id, s.customer_id, s.price, c.customer_state, c.customer_city⟩

/-- The loader's failure modes: the root data path does not exist
(data_loader.py line 50), or some required files are absent, all reported
together (line 58). -/
inductive LoadError where
  | invalidPath : LoadError
  | missingData : List String → LoadError
deriving DecidableEq

/-- The five required CSV files (data_loader.py lines 41-47). -/
def requiredFiles : List String :=
  ["orders_dataset.csv", "order_items_dataset.csv", "products_dataset.csv",
   "customers_dataset.csv", "order_reviews_dataset.csv"]

/-- What the loader can observe of the filesystem: whether the root data
path exists, and which file names exist under it. -/
structure FileSystem where
  rootExists : Bool
  filePresent : String → Bool

/-- `EcommerceDataLoader._validate_data_path` (data_loader.py
lines 39-58), run by the constructor before anything is read. -/
def validate_data_path (fs : FileSystem) : Except LoadError Unit :=
  if fs.rootExists = false then .error .invalidPath
  else if requiredFiles.filter (fun f => !fs.filePresent f) ≠ [] then
    .error (.missingData (requiredFiles.filter (fun f => !fs.filePresent f)))
  else .ok ()

/-- The dictionary of parsed datasets returned by `load_all_datasets`,
parametrized by what a parsed CSV is. -/
structure Datasets (α : Type) where
  orders : α
  order_items : α
  products : α
  customers : α
  reviews : α
deriving DecidableEq

/-- The loader lifecycle as the dashboard drives it: the constructor's
`_validate_data_path`, then `load_all_datasets` (data_loader.py
lines 60-93) parsing the five files. -/
def load_all_datasets {α : Type} (fs : FileSystem) (read_csv : String → α) :
    Except LoadError (Datasets α) :=
  match validate_data_path fs with
  | .error e => .error e
  | .ok _ => .ok ⟨read_csv "orders_dataset.csv", read_csv "order_items_dataset.csv",
      read_csv "products_dataset.csv", read_csv "customers_dataset.csv",
      read_csv "order_reviews_dataset.csv"⟩

end DataAnalysis

namespace DataAnalysis

/-- Claim C10: `categorize_delivery_speed` is total over all integer day
counts and always returns exactly one of the three labels: every
`days ≤ 3` (including 0 and negative values) maps to "1-3 days", every
`3 < days ≤ 7` to "4-7 days", and every `days > 7` to "8+ days". -/
theorem C10_delivery_speed_total (days : ℤ) :
    (categorize_delivery_speed days = "1-3 days" ∨
      categorize_delivery_speed days = "4-7 days" ∨
      categorize_delivery_speed days = "8+ days") ∧
    (days ≤ 3 → categorize_delivery_speed days = "1-3 days") ∧
    (3 < days → days ≤ 7 → categorize_delivery_speed days = "4-7 days") ∧
    (7 < days → categorize_delivery_speed days = "8+ days") := by
  unfold categorize_delivery_speed
  refine ⟨?_, ?_, ?_, ?_⟩
  · split_ifs <;> tauto
  · intro h
    rw [if_pos h]
  · intro h1 h2
    rw [if_neg (by omega : ¬ days ≤ 3), if_pos h2]
  · intro h
    rw [if_neg (by omega : ¬ days ≤ 3), if_neg (by omega : ¬ days ≤ 7)]

/-- Witness for C10: concrete day counts, including a negative one, land in
the stated buckets. -/
theorem C10_delivery_speed_total_witness :
    categorize_delivery_speed (-2) = "1-3 days" ∧
    categorize_delivery_speed 5 = "4-7 days" ∧
    categorize_delivery_speed 9 = "8+ days" :=
  ⟨(C10_delivery_speed_total (-2)).2.1 (by norm_num),
   (C10_delivery_speed_total 5).2.2.1 (by norm_num) (by norm_num),
   (C10_delivery_speed_total 9).2.2.2 (by norm_num)⟩

/-- Claim C7: the period window resolution rejects every `start >= end`
with the invalid-window error (a user-correctable input failure, not a
crash) and succeeds for every `start < end`. -/
theorem C7_window_validation (start_date end_date : ℤ) :
    (end_date ≤ start_date →
      resolveWindows start_date end_date = .error .invalidWindow) ∧
    (start_date < end_date →
      resolveWindows start_date end_date =
        .ok (⟨start_date, end_date⟩,
             ⟨start_date - (end_date - start_date), start_date - 1⟩)) := by
  unfold resolveWindows
  constructor
  · intro h
    rw [if_pos (by omega : start_date ≥ end_date)]
  · intro h
    rw [if_neg (by omega : ¬ start_date ≥ end_date)]

/-- Witness for C7: a reversed window is rejected, a proper one resolved. -/
theorem C7_window_validation_witness :
    resolveWindows 5 2 = .error .invalidWindow ∧
    resolveWindows 1 4 = .ok (⟨1, 4⟩, ⟨1 - (4 - 1), 1 - 1⟩) :=
  ⟨(C7_window_validation 5 2).1 (by norm_num),
   (C7_window_validation 1 4).2 (by norm_num)⟩

/-- Counterexample to claim C3: on the spec's own scenario
`[2023-01-01, 2023-06-30]` (181 days inclusive) the resolver produces the
previous window `[2022-07-05, 2022-12-31]` — 180 days, one day shorter
than the current window, and not starting 2022-07-03. -/
theorem C3_window_counterexample :
    resolveWindows (daysFromCivil 2023 1 1) (daysFromCivil 2023 6 30) =
      .ok (⟨daysFromCivil 2023 1 1, daysFromCivil 2023 6 30⟩,
           ⟨daysFromCivil 2022 7 5, daysFromCivil 2022 12 31⟩) ∧
    inclusiveLength ⟨daysFromCivil 2023 1 1, daysFromCivil 2023 6 30⟩ = 181 ∧
    inclusiveLength ⟨daysFromCivil 2022 7 5, daysFromCivil 2022 12 31⟩ = 180 ∧
    daysFromCivil 2022 7 5 ≠ daysFromCivil 2022 7 3 := by
  refine ⟨?_, by decide, by decide, by decide⟩
  unfold resolveWindows
  rw [if_neg (by decide : ¬ daysFromCivil 2023 1 1 ≥ daysFromCivil 2023 6 30)]
  have h1 : daysFromCivil 2023 1 1 - (daysFromCivil 2023 6 30 - daysFromCivil 2023 1 1) =
      daysFromCivil 2022 7 5 := by decide
  have h2 : daysFromCivil 2023 1 1 - 1 = daysFromCivil 2022 12 31 := by decide
  show (Except.ok
      ((⟨daysFromCivil 2023 1 1, daysFromCivil 2023 6 30⟩ : Window),
       (⟨daysFromCivil 2023 1 1 - (daysFromCivil 2023 6 30 - daysFromCivil 2023 1 1),
         daysFromCivil 2023 1 1 - 1⟩ : Window)) : Except WindowError (Window × Window)) =
    Except.ok
      (⟨daysFromCivil 2023 1 1, daysFromCivil 2023 6 30⟩,
       ⟨daysFromCivil 2022 7 5, daysFromCivil 2022 12 31⟩)
  rw [h1, h2]

/-- Claim C3 (amended): for every valid window `start < end` the resolver
returns the previous window ending exactly one day before the current
start, but its inclusive length is `(end - start)` days — one day SHORTER
than the current window's inclusive length `(end - start) + 1` (the code
computes `period_length = (end - start).days`, which excludes one
endpoint). -/
theorem C3_previous_window (start_date end_date : ℤ) (h : start_date < end_date) :
    resolveWindows start_date end_date =
      .ok (⟨start_date, end_date⟩,
           ⟨start_date - (end_date - start_date), start_date - 1⟩) ∧
    (⟨start_date - (end_date - start_date), start_date - 1⟩ : Window).endDay =
      start_date - 1 ∧
    inclusiveLength ⟨start_date - (end_date - start_date), start_date - 1⟩ =
      inclusiveLength ⟨start_date, end_date⟩ - 1 := by
  refine ⟨?_, rfl, ?_⟩
  · unfold resolveWindows
    rw [if_neg (by omega : ¬ start_date ≥ end_date)]
  · unfold inclusiveLength
    ring

/-- Witness for C3 (amended) at the concrete window `[0, 5]`: the previous
window is `[-5, -1]`, one day shorter (5 vs 6 inclusive days). -/
theorem C3_previous_window_witness :
    resolveWindows 0 5 = .ok (⟨0, 5⟩, ⟨0 - (5 - 0), 0 - 1⟩) ∧
    inclusiveLength ⟨0 - (5 - 0), 0 - 1⟩ = inclusiveLength ⟨0, 5⟩ - 1 :=
  ⟨(C3_previous_window 0 5 (by norm_num)).1,
   (C3_previous_window 0 5 (by norm_num)).2.2⟩

/-- Counterexample to claim C4: in `analyze_customer_experience`
(business_metrics.py) a row with `delivery_days = 15` is bucketed
"8+ days", not "15+ days", and `delivery_days = 14` is also "8+ days",
not "8-14 days" — that delivery/satisfaction computation has three
buckets, not the four the claim states. -/
theorem C4_bucketing_counterexample :
    delivery_category 15 = "8+ days" ∧ delivery_category 15 ≠ "15+ days" ∧
    delivery_category 14 = "8+ days" ∧ delivery_category 14 ≠ "8-14 days" := by
  decide

/-- Claim C4 (amended): the dashboard chart
`create_satisfaction_delivery_chart` does bucket delivery days into the
four bins 1-3 / 4-7 / 8-14 / 15+ with inclusive upper edges and an
open-ended final bucket, and averages review scores per bucket; but the
delivery/satisfaction correlation of `analyze_customer_experience` uses
only the three buckets 1-3 / 4-7 / 8+ (upper edges inclusive). -/
theorem C4_delivery_bucketing (d : ℤ) (rows : List FactRow) (b : String) :
    (0 < d → d ≤ 3 → pdCutDeliveryBucket d = some "1-3 days") ∧
    (3 < d → d ≤ 7 → pdCutDeliveryBucket d = some "4-7 days") ∧
    (7 < d → d ≤ 14 → pdCutDeliveryBucket d = some "8-14 days") ∧
    (14 < d → pdCutDeliveryBucket d = some "15+ days") ∧
    (d ≤ 3 → delivery_category d = "1-3 days") ∧
    (3 < d → d ≤ 7 → delivery_category d = "4-7 days") ∧
    (7 < d → delivery_category d = "8+ days") ∧
    (bucketScores rows b ≠ [] →
      satisfaction_by_delivery rows b =
        some ((bucketScores rows b).sum / ((bucketScores rows b).length : ℚ))) := by
  refine ⟨?_, ?_, ?_, ?_, ?_, ?_, ?_, ?_⟩
  · intro h1 h2; unfold pdCutDeliveryBucket; split_ifs <;> first | rfl | omega
  · intro h1 h2; unfold pdCutDeliveryBucket; split_ifs <;> first | rfl | omega
  · intro h1 h2; unfold pdCutDeliveryBucket; split_ifs <;> first | rfl | omega
  · intro h1; unfold pdCutDeliveryBucket; split_ifs <;> first | rfl | omega
  · intro h1; unfold delivery_category; split_ifs <;> first | rfl | omega
  · intro h1 h2; unfold delivery_category; split_ifs <;> first | rfl | omega
  · intro h1; unfold delivery_category; split_ifs <;> first | rfl | omega
  · intro h
    unfold satisfaction_by_delivery mean
    rw [if_neg h]

/-- Witness for C4 (amended): concrete boundary day counts land in the four
chart bins, and a one-row table yields that row's score as its bucket
average. -/
theorem C4_delivery_bucketing_witness :
    pdCutDeliveryBucket 3 = some "1-3 days" ∧
    pdCutDeliveryBucket 4 = some "4-7 days" ∧
    pdCutDeliveryBucket 14 = some "8-14 days" ∧
    pdCutDeliveryBucket 15 = some "15+ days" ∧
    satisfaction_by_delivery [⟨1, 1, 1, 10, 0, some 2, some 5⟩] "1-3 days" = some 5 := by
  refine ⟨(C4_delivery_bucketing 3 [] "").1 (by norm_num) (by norm_num),
    (C4_delivery_bucketing 4 [] "").2.1 (by norm_num) (by norm_num),
    (C4_delivery_bucketing 14 [] "").2.2.1 (by norm_num) (by norm_num),
    (C4_delivery_bucketing 15 [] "").2.2.2.1 (by norm_num), ?_⟩
  have hb : bucketScores [⟨1, 1, 1, 10, 0, some 2, some 5⟩] "1-3 days" = [5] := by decide
  have h := (C4_delivery_bucketing 0 [⟨1, 1, 1, 10, 0, some 2, some 5⟩] "1-3 days").2.2.2.2.2.2.2
    (by rw [hb]; exact List.cons_ne_nil 5 [])
  rw [h, hb]
  norm_num

/-- Counterexample to claim C9: a fact set with review scores 2 and 3 has
mean 5/2 = 2.5, and `int(round(...))` (Python round half to even) yields
2 stars, not the 3 stars round-half-up would give. -/
theorem C9_star_counterexample :
    stars_of [⟨1, 1, 1, 10, 0, some 3, some 2⟩, ⟨2, 1, 1, 10, 0, some 3, some 3⟩] = some 2 ∧
    stars_of [⟨1, 1, 1, 10, 0, some 3, some 2⟩, ⟨2, 1, 1, 10, 0, some 3, some 3⟩] ≠ some 3 := by
  have hrev : review_scores [⟨1, 1, 1, 10, 0, some 3, some 2⟩, ⟨2, 1, 1, 10, 0, some 3, some 3⟩] =
      [2, 3] := by decide
  have hm : mean [(2 : ℚ), 3] = some (5/2) := by
    unfold mean
    rw [if_neg (by decide : ¬ ([(2 : ℚ), 3] = []))]
    norm_num
  have hs : star_rating (5/2) = 2 := by
    unfold star_rating
    norm_num [Int.fract]
  have h : stars_of [⟨1, 1, 1, 10, 0, some 3, some 2⟩, ⟨2, 1, 1, 10, 0, some 3, some 3⟩] = some 2 := by
    unfold stars_of
    rw [hrev, hm]
    show some (star_rating (5/2)) = some 2
    rw [hs]
  exact ⟨h, by rw [h]; decide⟩

/-- Claim C9 (amended): the star discretization is round half to even, not
round half up: a mean exactly halfway between integers rounds to the even
neighbour (so 2.5 gives 2 stars, 3.5 gives 4 stars), and every other mean
rounds to the nearest integer. -/
theorem C9_star_rounding :
    (∀ n : ℤ, star_rating ((n : ℚ) + 1/2) = if n % 2 = 0 then n else n + 1) ∧
    (∀ q : ℚ, |q - (star_rating q : ℚ)| ≤ 1/2) ∧
    (∀ q : ℚ, q - (⌊q⌋ : ℚ) ≠ 1/2 → |q - (star_rating q : ℚ)| < 1/2) := by
  have hfl : ∀ n : ℤ, ⌊(n : ℚ) + 1/2⌋ = n := by
    intro n
    rw [Int.floor_eq_iff]
    constructor
    · norm_num
    · push_cast
      linarith
  refine ⟨?_, ?_, ?_⟩
  · intro n
    unfold star_rating
    rw [hfl n]
    have hr : ((n : ℚ) + 1/2) - (n : ℚ) = 1/2 := by ring
    rw [hr]
    norm_num
  · intro q
    have h1 : ((⌊q⌋ : ℚ)) ≤ q := Int.floor_le q
    have h2 : q < (⌊q⌋ : ℚ) + 1 := Int.lt_floor_add_one q
    unfold star_rating
    split_ifs with ha hb hc <;> rw [abs_le] <;> constructor <;> push_cast <;> linarith
  · intro q hq
    have h1 : ((⌊q⌋ : ℚ)) ≤ q := Int.floor_le q
    have h2 : q < (⌊q⌋ : ℚ) + 1 := Int.lt_floor_add_one q
    unfold star_rating
    split_ifs with ha hb hc <;> rw [abs_lt] <;> constructor <;> push_cast <;>
      first
        | linarith
        | (exact absurd (by linarith : q - (⌊q⌋ : ℚ) = 1/2) hq)

/-- Witness for C9 (amended): 3.5 rounds to 4 (even neighbour), and 11/4 =
2.75, whose fractional part is not 1/2, rounds strictly within 1/2. -/
theorem C9_star_rounding_witness :
    star_rating ((3 : ℚ) + 1/2) = 4 ∧
    |(11/4 : ℚ) - (star_rating (11/4) : ℚ)| < 1/2 := by
  constructor
  · have h := C9_star_rounding.1 3
    norm_num at h
    convert h using 2
    norm_num
  · exact C9_star_rounding.2.2 (11/4) (by norm_num)

/-- Splitting a sum over a list by a Boolean predicate. -/
theorem sum_filter_not_split {α : Type} (l : List α) (p : α → Bool) (v : α → ℚ) :
    ((l.filter p).map v).sum + ((l.filter (fun x => !(p x))).map v).sum = (l.map v).sum := by
  induction l with
  | nil => simp
  | cons a t ih =>
    cases h : p a with
    | true =>
      simp [List.filter_cons, h]
      linarith [ih]
    | false =>
      simp [List.filter_cons, h]
      linarith [ih]

/-- Summing group sums over a duplicate-free list of keys covering a list
recovers the total sum: grouping does not drop or double-count rows. -/
theorem sum_partition_keys {α : Type} (key : α → Nat) (v : α → ℚ) :
    ∀ ks : List Nat, ks.Nodup → ∀ l : List α, (∀ x ∈ l, key x ∈ ks) →
      (ks.map (fun k => ((l.filter (fun x => key x == k)).map v).sum)).sum = (l.map v).sum := by
  intro ks
  induction ks with
  | nil =>
    intro _ l hcov
    cases l with
    | nil => simp
    | cons a t => exact absurd (hcov a (List.mem_cons_self a t)) (List.not_mem_nil _)
  | cons k ks ih =>
    intro hnd l hcov
    have hk : k ∉ ks := (List.nodup_cons.mp hnd).1
    have hnd' : ks.Nodup := (List.nodup_cons.mp hnd).2
    have hsub : ∀ k' ∈ ks, l.filter (fun x => key x == k') =
        (l.filter (fun x => !(key x == k))).filter (fun x => key x == k') := by
      intro k' hk'
      rw [List.filter_filter]
      apply List.filter_congr
      intro x _
      cases h1 : (key x == k') with
      | false => simp [h1]
      | true =>
        have hxk : key x = k' := by simpa using h1
        have hne : k' ≠ k := fun he => hk (he ▸ hk')
        have h2 : (key x == k) = false := by
          rw [hxk]
          exact beq_eq_false_iff_ne.mpr hne
        simp [h1, h2]
    have hcov' : ∀ x ∈ l.filter (fun x => !(key x == k)), key x ∈ ks := by
      intro x hx
      obtain ⟨hxl, hxb⟩ := List.mem_filter.mp hx
      rcases List.mem_cons.mp (hcov x hxl) with h | h
      · exfalso
        simp [h] at hxb
      · exact h
    have ihl := ih hnd' (l.filter (fun x => !(key x == k))) hcov'
    have hmaps : ks.map (fun k' => ((l.filter (fun x => key x == k')).map v).sum) =
        ks.map (fun k' =>
          (((l.filter (fun x => !(key x == k))).filter (fun x => key x == k')).map v).sum) := by
      apply List.map_congr_left
      intro k' hk'
      rw [hsub k' hk']
    rw [List.map_cons, List.sum_cons, hmaps, ihl]
    exact sum_filter_not_split l (fun x => key x == k) v

/-- The per-order revenues of `groupby('order_id')['price'].sum()` add up
to the table's total revenue. -/
theorem sum_perOrderRevenue (rows : List FactRow) :
    (perOrderRevenue rows).sum = totalRevenue rows := by
  have h := sum_partition_keys FactRow.order_id FactRow.price (orderIds rows)
    (by simpa [orderIds] using List.nodup_dedup (rows.map FactRow.order_id)) rows
    (fun x hx => by simpa [orderIds] using List.mem_dedup.mpr (List.mem_map_of_mem FactRow.order_id hx))
  simpa [perOrderRevenue, totalRevenue] using h

/-- There are as many per-order revenue entries as distinct orders. -/
theorem length_perOrderRevenue (rows : List FactRow) :
    (perOrderRevenue rows).length = totalOrders rows := by
  simp [perOrderRevenue, totalOrders]

/-- A nonempty table has a nonempty per-order revenue series. -/
theorem perOrderRevenue_ne_nil (rows : List FactRow) (h : rows ≠ []) :
    perOrderRevenue rows ≠ [] := by
  simp only [perOrderRevenue, orderIds]
  simp only [ne_eq, List.map_eq_nil_iff, List.dedup_eq_nil]
  exact h

/-- `groupby('order_id')['price'].sum().mean()` equals total revenue over
distinct orders on every nonempty table. -/
theorem mean_perOrderRevenue (rows : List FactRow) (h : rows ≠ []) :
    mean (perOrderRevenue rows) =
      some (totalRevenue rows / (totalOrders rows : ℚ)) := by
  unfold mean
  rw [if_neg (perOrderRevenue_ne_nil rows h), sum_perOrderRevenue, length_perOrderRevenue]

/-- A guard of the form `x if len(df) > 0 else 0` is redundant for the
revenue sum: the sum over an empty table is 0 anyway. -/
theorem ite_len_totalRevenue (l : List FactRow) :
    (if l.length > 0 then totalRevenue l else 0) = totalRevenue l := by
  cases l with
  | nil => simp [totalRevenue]
  | cons a t => simp

/-- The same for the distinct-order count. -/
theorem ite_len_totalOrders (l : List FactRow) :
    (if l.length > 0 then totalOrders l else 0) = totalOrders l := by
  cases l with
  | nil => simp [totalOrders, orderIds]
  | cons a t => simp

/-- Counterexample to claim C1: with a nonempty current period and an
entirely empty previous period, `calculate_revenue_metrics` raises
ZeroDivisionError at the integer division
`(total_orders - prev_orders) / prev_orders` (business_metrics.py
line 59) — a division error, not the claimed growth of 0: the call never
returns a metrics dict at all. -/
theorem C1_growth_counterexample :
    calculate_revenue_metrics [⟨1, 1, 1, 100, 0, none, none⟩] (some []) =
      .error .zeroDivision ∧
    (calculate_revenue_metrics [⟨1, 1, 1, 100, 0, none, none⟩] (some [])).isOk = false := by
  exact ⟨rfl, rfl⟩

/-- Claim C1 (amended): the dashboard KPI path `calculate_kpis` does
compute every growth rate as `(current - previous) / previous * 100` when
the previous metric is positive and as 0 otherwise (0 in particular for an
empty previous fact set), never dividing by zero; but the parallel
`calculate_revenue_metrics` path is unguarded — it raises
ZeroDivisionError (the integer order-count division) whenever the
comparison set has no orders, e.g. an empty previous fact set, and only
returns a metrics dict when the previous order count is positive. -/
theorem C1_growth_rates (current_data previous_data : Frame)
    (sales_data comparison_rows : List FactRow) :
    ((calculate_kpis current_data previous_data).1.revenue_growth =
      if totalRevenue previous_data.rows > 0 then
        (totalRevenue current_data.rows - totalRevenue previous_data.rows) /
          totalRevenue previous_data.rows * 100
      else 0) ∧
    ((calculate_kpis current_data previous_data).1.orders_growth =
      if totalOrders previous_data.rows > 0 then
        ((totalOrders current_data.rows : ℚ) - (totalOrders previous_data.rows : ℚ)) /
          (totalOrders previous_data.rows : ℚ) * 100
      else 0) ∧
    ((calculate_kpis current_data previous_data).1.aov_growth =
      if avgOrderValue previous_data.rows > 0 then
        (avgOrderValue current_data.rows - avgOrderValue previous_data.rows) /
          avgOrderValue previous_data.rows * 100
      else 0) ∧
    (previous_data.rows = [] →
      (calculate_kpis current_data previous_data).1.revenue_growth = 0 ∧
      (calculate_kpis current_data previous_data).1.orders_growth = 0 ∧
      (calculate_kpis current_data previous_data).1.aov_growth = 0) ∧
    (totalOrders comparison_rows = 0 →
      calculate_revenue_metrics sales_data (some comparison_rows) = .error .zeroDivision) ∧
    (totalOrders comparison_rows > 0 →
      (calculate_revenue_metrics sales_data (some comparison_rows)).isOk = true) := by
  have e1 : (calculate_kpis current_data previous_data).1.revenue_growth =
      if totalRevenue previous_data.rows > 0 then
        (totalRevenue current_data.rows - totalRevenue previous_data.rows) /
          totalRevenue previous_data.rows * 100
      else 0 := by
    simp only [calculate_kpis]
    rw [ite_len_totalRevenue]
  have e2 : (calculate_kpis current_data previous_data).1.orders_growth =
      if totalOrders previous_data.rows > 0 then
        ((totalOrders current_data.rows : ℚ) - (totalOrders previous_data.rows : ℚ)) /
          (totalOrders previous_data.rows : ℚ) * 100
      else 0 := by
    simp only [calculate_kpis]
    rw [ite_len_totalOrders]
  have e3 : (calculate_kpis current_data previous_data).1.aov_growth =
      if avgOrderValue previous_data.rows > 0 then
        (avgOrderValue current_data.rows - avgOrderValue previous_data.rows) /
          avgOrderValue previous_data.rows * 100
      else 0 := by
    simp only [calculate_kpis, avgOrderValue]
    rw [ite_len_totalRevenue, ite_len_totalOrders]
  refine ⟨e1, e2, e3, fun h => ⟨?_, ?_, ?_⟩, ?_, ?_⟩
  · rw [e1, h]
    simp [totalRevenue]
  · rw [e2, h]
    simp [totalOrders, orderIds]
  · rw [e3, h]
    simp [avgOrderValue, totalOrders, orderIds]
  · intro h
    simp only [calculate_revenue_metrics]
    rw [if_pos h]
  · intro h
    simp only [calculate_revenue_metrics]
    rw [if_neg (by omega)]
    rfl

/-- Witness for C1 (amended): with an empty previous frame all three KPI
growth rates are exactly 0; `calculate_revenue_metrics` raises on an empty
comparison set and returns on a nonempty one. -/
theorem C1_growth_rates_witness :
    (calculate_kpis ⟨[⟨1, 1, 1, 100, 0, none, none⟩], []⟩ ⟨[], []⟩).1.revenue_growth = 0 ∧
    (calculate_kpis ⟨[⟨1, 1, 1, 100, 0, none, none⟩], []⟩ ⟨[], []⟩).1.orders_growth = 0 ∧
    (calculate_kpis ⟨[⟨1, 1, 1, 100, 0, none, none⟩], []⟩ ⟨[], []⟩).1.aov_growth = 0 ∧
    calculate_revenue_metrics [⟨2, 1, 1, 40, 0, none, none⟩] (some []) = .error .zeroDivision ∧
    (calculate_revenue_metrics [⟨2, 1, 1, 40, 0, none, none⟩]
      (some [⟨3, 1, 1, 10, 0, none, none⟩])).isOk = true := by
  have h0 := C1_growth_rates ⟨[⟨1, 1, 1, 100, 0, none, none⟩], []⟩ ⟨[], []⟩
    [⟨2, 1, 1, 40, 0, none, none⟩] []
  have h1 := C1_growth_rates ⟨[⟨1, 1, 1, 100, 0, none, none⟩], []⟩ ⟨[], []⟩
    [⟨2, 1, 1, 40, 0, none, none⟩] [⟨3, 1, 1, 10, 0, none, none⟩]
  obtain ⟨g1, g2, g3⟩ := h0.2.2.2.1 rfl
  exact ⟨g1, g2, g3, h0.2.2.2.2.1 rfl, h1.2.2.2.2.2 (by decide)⟩

/-- Counterexample to claim C2: on an entirely empty fact set the
`calculate_revenue_metrics` average order value is the mean of an empty
series — NaN (`none`) — not the claimed 0. -/
theorem C2_aov_counterexample :
    calculate_revenue_metrics [] none = .ok ⟨0, 0, none, 0, none⟩ ∧
    (calculate_revenue_metrics [] none).map RevenueMetrics.avg_order_value ≠
      .ok (some 0) := by
  have hmap : (calculate_revenue_metrics [] none).map RevenueMetrics.avg_order_value =
      .ok none := rfl
  refine ⟨rfl, ?_⟩
  rw [hmap]
  simp

/-- Claim C2 (amended): both metric paths compute total revenue as the sum
of `price` and total orders as the distinct `order_id` count; the KPI path
`calculate_kpis` computes average order value as revenue over distinct
orders with fallback 0 for an empty set, and `calculate_revenue_metrics`
agrees with revenue/orders on every NONEMPTY fact set but yields NaN
(`none`), not 0, on an empty one. -/
theorem C2_kpi_aggregates (current_data previous_data : Frame) (sales_data : List FactRow) :
    ((calculate_kpis current_data previous_data).1.total_revenue =
      totalRevenue current_data.rows) ∧
    ((calculate_kpis current_data previous_data).1.total_orders =
      totalOrders current_data.rows) ∧
    ((calculate_kpis current_data previous_data).1.avg_order_value =
      avgOrderValue current_data.rows) ∧
    (totalOrders current_data.rows = 0 →
      (calculate_kpis current_data previous_data).1.avg_order_value = 0) ∧
    ((calculate_revenue_metrics sales_data none).map RevenueMetrics.total_revenue =
      .ok (totalRevenue sales_data)) ∧
    ((calculate_revenue_metrics sales_data none).map RevenueMetrics.total_orders =
      .ok (totalOrders sales_data)) ∧
    (sales_data ≠ [] →
      (calculate_revenue_metrics sales_data none).map RevenueMetrics.avg_order_value =
        .ok (some (totalRevenue sales_data / (totalOrders sales_data : ℚ)))) := by
  have e3 : (calculate_kpis current_data previous_data).1.avg_order_value =
      avgOrderValue current_data.rows := by
    simp only [calculate_kpis, avgOrderValue]
  refine ⟨by simp only [calculate_kpis], by simp only [calculate_kpis], e3, ?_, rfl, rfl, ?_⟩
  · intro h
    rw [e3]
    unfold avgOrderValue
    rw [if_neg (by omega)]
  · intro h
    have hproj : (calculate_revenue_metrics sales_data none).map RevenueMetrics.avg_order_value =
        .ok (mean (perOrderRevenue sales_data)) := rfl
    rw [hproj, mean_perOrderRevenue sales_data h]

/-- Witness for C2 (amended): the spec scenario — two orders with revenues
100 and 50 give AOV 75 in `calculate_revenue_metrics` — and the empty KPI
frame gives AOV 0. -/
theorem C2_kpi_aggregates_witness :
    (calculate_revenue_metrics [⟨1, 1, 1, 100, 0, none, none⟩, ⟨2, 2, 2, 50, 0, none, none⟩]
      none).map RevenueMetrics.avg_order_value = .ok (some 75) ∧
    (calculate_kpis ⟨[], []⟩ ⟨[], []⟩).1.avg_order_value = 0 := by
  constructor
  · have h := (C2_kpi_aggregates ⟨[], []⟩ ⟨[], []⟩
      [⟨1, 1, 1, 100, 0, none, none⟩, ⟨2, 2, 2, 50, 0, none, none⟩]).2.2.2.2.2.2 (by decide)
    rw [h]
    rw [show totalRevenue [⟨1, 1, 1, 100, 0, none, none⟩, ⟨2, 2, 2, 50, 0, none, none⟩] =
      150 from by norm_num [totalRevenue]]
    rw [show totalOrders [⟨1, 1, 1, 100, 0, none, none⟩, ⟨2, 2, 2, 50, 0, none, none⟩] =
      2 from by decide]
    norm_num
  · exact (C2_kpi_aggregates ⟨[], []⟩ ⟨[], []⟩ []).2.2.2.1 (by decide)

/-- A left join keyed on a (at most singly matching) product key keeps
exactly one output row per input row, so the joined revenue equals the
input revenue. -/
theorem sum_leftJoinProducts (products : List Product) :
    ∀ sales : List SalesRow,
      (∀ s ∈ sales, (products.filter (fun p => p.product_id == s.product_id)).length ≤ 1) →
      ((leftJoinProducts sales products).map JoinedRow.price).sum =
        (sales.map SalesRow.price).sum := by
  intro sales
  induction sales with
  | nil =>
    intro _
    simp [leftJoinProducts]
  | cons s t ih =>
    intro hp
    have hs := hp s (List.mem_cons_self s t)
    have ih' := ih (fun x hx => hp x (List.mem_cons_of_mem s hx))
    simp only [leftJoinProducts, List.flatMap_cons, List.map_append, List.sum_append] at ih' ⊢
    rw [ih']
    cases hf : products.filter (fun p => p.product_id == s.product_id) with
    | nil =>
      simp [hf]
    | cons p ps =>
      have hps : ps = [] := by
        rw [hf] at hs
        simpa using hs
      subst hps
      simp [hf]

/-- The same for the customer left join. -/
theorem sum_leftJoinCustomers (customers : List Customer)
    (hc : ∀ i : Nat, (customers.filter (fun c => c.customer_id == i)).length ≤ 1) :
    ∀ rows : List JoinedRow,
      ((leftJoinCustomers rows customers).map JoinedRow.price).sum =
        (rows.map JoinedRow.price).sum := by
  intro rows
  induction rows with
  | nil => simp [leftJoinCustomers]
  | cons r t ih =>
    simp only [leftJoinCustomers, List.flatMap_cons, List.map_append, List.sum_append] at ih ⊢
    rw [ih]
    cases hf : customers.filter (fun c => c.customer_id == r.customer_id) with
    | nil =>
      simp [hf]
    | cons c cs =>
      have hcs : cs = [] := by
        have h := hc r.customer_id
        rw [hf] at h
        simpa using h
      subst hcs
      simp [hf]

/-- A sales row whose product has no match survives the product left join
with category absent. -/
theorem mem_leftJoinProducts_unmatched (sales : List SalesRow) (products : List Product)
    (s : SalesRow) (hs : s ∈ sales)
    (hf : products.filter (fun p => p.product_id == s.product_id) = []) :
    (⟨s.order_id, s.product_id, s.customer_id, s.price, none, none⟩ : JoinedRow) ∈
      leftJoinProducts sales products := by
  unfold leftJoinProducts
  apply List.mem_flatMap.mpr
  refine ⟨s, hs, ?_⟩
  rw [hf]
  simp

/-- A joined row whose customer has no match survives the customer left
join with state absent. -/
theorem mem_leftJoinCustomers_unmatched (rows : List JoinedRow) (customers : List Customer)
    (r : JoinedRow) (hr : r ∈ rows)
    (hf : customers.filter (fun c => c.customer_id == r.customer_id) = []) :
    ({ r with customer_state := none } : JoinedRow) ∈ leftJoinCustomers rows customers := by
  unfold leftJoinCustomers
  apply List.mem_flatMap.mpr
  refine ⟨r, hr, ?_⟩
  rw [hf]
  simp

/-- Counterexample to claim C5: a fact-table row whose `product_id` (or
`customer_id`) has no match is dropped by the inner joins of
`get_product_category_data` and `get_geographic_data`, so its price of 100
is missing from the revenue computed on those joined tables. -/
theorem C5_join_counterexample :
    ((get_product_category_data [] [⟨1, 99, 7, 100⟩]).map CategoryRow.price).sum = 0 ∧
    ((get_geographic_data [⟨1, 99, 7, 100⟩] []).map GeoRow.price).sum = 0 ∧
    (([⟨1, 99, 7, 100⟩] : List SalesRow).map SalesRow.price).sum = 100 := by
  refine ⟨by simp [get_product_category_data], by simp [get_geographic_data], by simp⟩

/-- Claim C5 (amended): in the dashboard fact builder the product and
customer joins are LEFT joins (app.py lines 49-51): every row is kept, an
unmatched row carries absent category and state with all base fields and
its price intact, and the joined revenue total equals the input revenue
total (given the unique-key property of products and customers). But
`get_product_category_data` and `get_geographic_data` in data_loader.py
are INNER joins: each of their output rows has a matching product resp.
customer, so unmatched rows are dropped there. -/
theorem C5_join_semantics (sales : List SalesRow) (products : List Product)
    (customers : List Customer)
    (hp : ∀ s ∈ sales, (products.filter (fun p => p.product_id == s.product_id)).length ≤ 1)
    (hc : ∀ i : Nat, (customers.filter (fun c => c.customer_id == i)).length ≤ 1) :
    (((leftJoinCustomers (leftJoinProducts sales products) customers).map JoinedRow.price).sum =
      (sales.map SalesRow.price).sum) ∧
    (∀ s ∈ sales,
      products.filter (fun p => p.product_id == s.product_id) = [] →
      customers.filter (fun c => c.customer_id == s.customer_id) = [] →
      (⟨s.order_id, s.product_id, s.customer_id, s.price, none, none⟩ : JoinedRow) ∈
        leftJoinCustomers (leftJoinProducts sales products) customers) ∧
    (∀ r ∈ get_product_category_data products sales, ∃ p ∈ products, p.product_id = r.product_id) ∧
    (∀ g ∈ get_geographic_data sales customers, ∃ c ∈ customers, c.customer_id = g.customer_id) := by
  refine ⟨?_, ?_, ?_, ?_⟩
  · rw [sum_leftJoinCustomers customers hc (leftJoinProducts sales products)]
    exact sum_leftJoinProducts products sales hp
  · intro s hs hfp hfc
    have h1 := mem_leftJoinProducts_unmatched sales products s hs hfp
    exact mem_leftJoinCustomers_unmatched _ customers _ h1 hfc
  · intro r hr
    unfold get_product_category_data at hr
    obtain ⟨p, hpmem, hr2⟩ := List.mem_flatMap.mp hr
    obtain ⟨s0, _, heq⟩ := List.mem_map.mp hr2
    exact ⟨p, hpmem, by rw [← heq]⟩
  · intro g hg
    unfold get_geographic_data at hg
    obtain ⟨s0, _, hg2⟩ := List.mem_flatMap.mp hg
    obtain ⟨c, hcmem, heq⟩ := List.mem_map.mp hg2
    obtain ⟨hcl, hcb⟩ := List.mem_filter.mp hcmem
    refine ⟨c, hcl, ?_⟩
    rw [← heq]
    simpa using hcb

/-- Witness for C5 (amended): a row with unmatched product and customer
keys survives both left joins with absent category/state and keeps its
revenue. -/
theorem C5_join_semantics_witness :
    ((leftJoinCustomers (leftJoinProducts [⟨1, 99, 7, 100⟩] [⟨1, some "books"⟩]) []).map
      JoinedRow.price).sum = (([⟨1, 99, 7, 100⟩] : List SalesRow).map SalesRow.price).sum ∧
    (⟨1, 99, 7, 100, none, none⟩ : JoinedRow) ∈
      leftJoinCustomers (leftJoinProducts [⟨1, 99, 7, 100⟩] [⟨1, some "books"⟩]) [] := by
  have h := C5_join_semantics [⟨1, 99, 7, 100⟩] [⟨1, some "books"⟩] []
    (by decide) (fun i => by simp)
  exact ⟨h.1, h.2.1 ⟨1, 99, 7, 100⟩ (by simp) (by decide) rfl⟩

/-- Claim C6: the loader fails with the invalid-path error when the root
data path does not exist; otherwise, if any required file is absent, it
fails with one missing-data error naming exactly the absent required
files, decided before any file is parsed (the outcome is independent of
the parser whenever validation fails); with everything present it loads
all five files. -/
theorem C6_loader_validation {α : Type} (fs : FileSystem) (read_csv : String → α) :
    (fs.rootExists = false → load_all_datasets fs read_csv = .error .invalidPath) ∧
    (fs.rootExists = true →
      requiredFiles.filter (fun f => !fs.filePresent f) ≠ [] →
      load_all_datasets fs read_csv =
        .error (.missingData (requiredFiles.filter (fun f => !fs.filePresent f)))) ∧
    (fs.rootExists = true →
      (∀ f ∈ requiredFiles, fs.filePresent f = true) →
      load_all_datasets fs read_csv =
        .ok ⟨read_csv "orders_dataset.csv", read_csv "order_items_dataset.csv",
             read_csv "products_dataset.csv", read_csv "customers_dataset.csv",
             read_csv "order_reviews_dataset.csv"⟩) ∧
    (∀ read_csv2 : String → α, validate_data_path fs ≠ .ok () →
      load_all_datasets fs read_csv = load_all_datasets fs read_csv2) ∧
    (∀ f : String, f ∈ requiredFiles.filter (fun x => !fs.filePresent x) ↔
      (f ∈ requiredFiles ∧ fs.filePresent f = false)) := by
  refine ⟨?_, ?_, ?_, ?_, ?_⟩
  · intro h
    unfold load_all_datasets validate_data_path
    rw [if_pos h]
  · intro hr hm
    unfold load_all_datasets validate_data_path
    rw [if_neg (by simp [hr]), if_pos hm]
  · intro hr hall
    have hnil : requiredFiles.filter (fun f => !fs.filePresent f) = [] := by
      rw [List.filter_eq_nil_iff]
      intro a ha
      simp [hall a ha]
    unfold load_all_datasets validate_data_path
    rw [if_neg (by simp [hr]), if_neg (by simp [hnil])]
  · intro g hfail
    unfold load_all_datasets
    cases hv : validate_data_path fs with
    | error e => rfl
    | ok u =>
      cases u
      exact absurd hv hfail
  · intro f
    simp [List.mem_filter]

/-- Witness for C6: a missing root path gives the invalid-path error; a
present root with only `orders_dataset.csv` absent reports exactly that
file. -/
theorem C6_loader_validation_witness :
    load_all_datasets ⟨false, fun _ => true⟩ (fun _ => ()) = .error .invalidPath ∧
    load_all_datasets ⟨true, fun f => !(f == "orders_dataset.csv")⟩ (fun _ => ()) =
      .error (.missingData ["orders_dataset.csv"]) := by
  constructor
  · exact (C6_loader_validation ⟨false, fun _ => true⟩ (fun _ => ())).1 rfl
  · have h := (C6_loader_validation ⟨true, fun f => !(f == "orders_dataset.csv")⟩
      (fun _ => ())).2.1 rfl (by decide)
    rw [h]
    have e : requiredFiles.filter
        (fun f => !(FileSystem.filePresent ⟨true, fun f => !(f == "orders_dataset.csv")⟩ f)) =
        ["orders_dataset.csv"] := by decide
    rw [e]

/-- The in-place column assignment does not touch the row data. -/
theorem addCol_rows (f : Frame) (c : String) : (addCol f c).rows = f.rows := by
  by_cases h : c ∈ f.extraCols
  · simp [addCol, h]
  · simp [addCol, h]

/-- Assigning the same column twice is the same as assigning it once. -/
theorem addCol_idem (f : Frame) (c : String) : addCol (addCol f c) c = addCol f c := by
  by_cases h : c ∈ f.extraCols
  · simp [addCol, h]
  · simp [addCol, h]

/-- The KPI dictionary depends only on the row data of the two frames,
not on their column sets. -/
theorem calculate_kpis_fst_congr (c1 p1 c2 p2 : Frame) (hc : c1.rows = c2.rows)
    (hp : p1.rows = p2.rows) :
    (calculate_kpis c1 p1).1 = (calculate_kpis c2 p2).1 := by
  obtain ⟨rc1, ec1⟩ := c1
  obtain ⟨rc2, ec2⟩ := c2
  obtain ⟨rp1, ep1⟩ := p1
  obtain ⟨rp2, ep2⟩ := p2
  change rc1 = rc2 at hc
  change rp1 = rp2 at hp
  subst hc
  subst hp
  rfl

/-- Counterexample to claim C8: `calculate_kpis` and
`create_revenue_trend_chart` do NOT leave their input frames unchanged —
each assigns a `year_month` column onto the shared frames in place, so the
frames observed after the call differ from the inputs. -/
theorem C8_mutation_counterexample :
    (calculate_kpis ⟨[⟨1, 1, 1, 50, 0, none, none⟩], []⟩ ⟨[], []⟩).2.1 ≠
      ⟨[⟨1, 1, 1, 50, 0, none, none⟩], []⟩ ∧
    (calculate_kpis ⟨[⟨1, 1, 1, 50, 0, none, none⟩], []⟩ ⟨[], []⟩).2.2 ≠ ⟨[], []⟩ ∧
    (create_revenue_trend_chart ⟨[⟨1, 1, 1, 50, 0, none, none⟩], []⟩ ⟨[], []⟩).2.1 ≠
      ⟨[⟨1, 1, 1, 50, 0, none, none⟩], []⟩ := by
  refine ⟨by decide, by decide, by decide⟩

/-- Claim C8 (amended): the KPI and trend-chart computations mutate the
shared fact frames only by assigning the derived `year_month` column in
place: the row data (every order, price, timestamp and review value) is
never altered, and the mutation is idempotent, so a second run on the
already-mutated frames computes identical KPIs and leaves the frames
exactly as the first run did. -/
theorem C8_pipeline_mutation (current_data previous_data : Frame) :
    ((calculate_kpis current_data previous_data).2.1.rows = current_data.rows) ∧
    ((calculate_kpis current_data previous_data).2.2.rows = previous_data.rows) ∧
    ((calculate_kpis current_data previous_data).2.1 = addCol current_data "year_month") ∧
    ((calculate_kpis current_data previous_data).2.2 = addCol previous_data "year_month") ∧
    ((create_revenue_trend_chart current_data previous_data).2.1.rows = current_data.rows) ∧
    ((create_revenue_trend_chart current_data previous_data).2.2.rows = previous_data.rows) ∧
    ((calculate_kpis (calculate_kpis current_data previous_data).2.1
        (calculate_kpis current_data previous_data).2.2).1 =
      (calculate_kpis current_data previous_data).1) ∧
    ((calculate_kpis (calculate_kpis current_data previous_data).2.1
        (calculate_kpis current_data previous_data).2.2).2 =
      (calculate_kpis current_data previous_data).2) := by
  have h21 : (calculate_kpis current_data previous_data).2.1 =
      addCol current_data "year_month" := rfl
  have h22 : (calculate_kpis current_data previous_data).2.2 =
      addCol previous_data "year_month" := rfl
  refine ⟨?_, ?_, h21, h22, ?_, ?_, ?_, ?_⟩
  · rw [h21, addCol_rows]
  · rw [h22, addCol_rows]
  · have hc1 : (create_revenue_trend_chart current_data previous_data).2.1 =
        addCol current_data "year_month" := by
      unfold create_revenue_trend_chart
      split <;> rfl
    rw [hc1, addCol_rows]
  · unfold create_revenue_trend_chart
    split
    · exact addCol_rows previous_data "year_month"
    · rfl
  · rw [h21, h22]
    exact calculate_kpis_fst_congr _ _ _ _ (addCol_rows current_data "year_month")
      (addCol_rows previous_data "year_month")
  · rw [h21, h22]
    show (addCol (addCol current_data "year_month") "year_month",
          addCol (addCol previous_data "year_month") "year_month") =
      (calculate_kpis current_data previous_data).2
    rw [addCol_idem, addCol_idem]
    rfl

end DataAnalysis
